import Mathlib

/-!
Verification development for the PydantiAI-MCP repository.

We shallowly embed the tool-dispatch layer of the three demo servers:
`SQLite Explorer/server.py` (low-level MCP server with registry, resources
and a memo), `mcp-agent-multi-tools/server.py` (the `add` tool) and
`Github-Users-MCP/server.py` (the `github_search` tool).  Python strings
become Lean `String`s, dictionaries become association lists, exceptions
become `Except String`, and the sqlite3 library is modelled by a small
engine faithful to sqlite's documented behaviour on the statement forms
this repository issues.
-/

namespace PydantiAIMCP

/-- The characters Python's `str.strip()` removes (`str.isspace` set,
restricted to what occurs in this repository's ASCII SQL text). -/
def pyIsSpace (c : Char) : Bool :=
  c = ' ' || c = '\t' || c = '\n' || c = '\r' || c = '\x0b' || c = '\x0c'

/-- Python `s.strip()`: drop leading and trailing whitespace. -/
def pyStrip (s : String) : String :=
  ⟨(s.data.dropWhile pyIsSpace).reverse.dropWhile pyIsSpace |>.reverse⟩

/-- Python `s.upper()` on the ASCII text this repository handles. -/
def pyUpper (s : String) : String :=
  ⟨s.data.map Char.toUpper⟩

/-- Python `s.startswith(p)`. -/
def pyStartsWith (s p : String) : Bool :=
  p.data.isPrefixOf s.data

/-- Python `s.startswith((p1, ..., pn))`: true if any alternative matches. -/
def pyStartsWithAny (s : String) (ps : List String) : Bool :=
  ps.any (fun p => pyStartsWith s p)

/-- Does the character list `pat` occur as a contiguous run inside `l`?  Used
to state "the memo text contains the bullet". -/
def listHasRun (pat : List Char) : List Char → Bool
  | [] => pat.isEmpty
  | c :: cs => (pat.isPrefixOf (c :: cs)) || listHasRun pat cs

/-- Substring test on strings (Python `pat in s`). -/
def strHas (s pat : String) : Bool :=
  listHasRun pat.data s.data

/-- Split a character list into its newline-separated lines. -/
def splitLinesCh : List Char → List (List Char)
  | [] => [[]]
  | c :: cs =>
    match splitLinesCh cs with
    | [] => [[c]]
    | l :: ls => if c = '\n' then [] :: l :: ls else (c :: l) :: ls

/-- The text after the last newline of `s`: its tail line. -/
def lastLine (s : String) : String :=
  ⟨(splitLinesCh s.data).getLastD []⟩

/-- Did a fallible computation succeed? -/
def resultOk {α : Type} : Except String α → Bool
  | .ok _ => true
  | .error _ => false

/-- A cell value in a fetched sqlite row. -/
inductive RVal where
  | str (s : String)
  | int (n : Int)
deriving DecidableEq, Repr

/-- A fetched row, as the Python code sees it after `dict(r)`:
an ordered mapping from column name to value. -/
abbrev Row := List (String × RVal)

/-- Python `repr` of one of our cell values (table names contain no quotes). -/
def renderVal : RVal → String
  | .str s => "'" ++ s ++ "'"
  | .int n => toString n

/-- Python `str` of a row dict, e.g. `\x7b'name': 'users'\x7d`. -/
def renderRow (r : Row) : String :=
  "\x7b" ++ String.intercalate ", " (r.map (fun kv => "'" ++ kv.1 ++ "': " ++ renderVal kv.2)) ++ "\x7d"

/-- Python `str` of the list of row dicts returned by `_execute_query`. -/
def renderRows (rs : List Row) : String :=
  "[" ++ String.intercalate ", " (rs.map renderRow) ++ "]"

/-- The on-disk database file: the set of tables it holds, in creation
order.  Row contents are not tracked; no claim depends on them. -/
structure DbFile where
  tables : List String
deriving DecidableEq, Repr

/-- The empty database file created by `SqliteDatabase.__init__`. -/
def DbFile.empty : DbFile := ⟨[]⟩

/-- Lexicographic (code-point-wise) order on character lists: sqlite's
BINARY collation on the ASCII names this repository uses. -/
def lexLe : List Char → List Char → Bool
  | [], _ => true
  | _ :: _, [] => false
  | a :: as, b :: bs =>
    if a.toNat < b.toNat then true
    else if b.toNat < a.toNat then false
    else lexLe as bs

/-- Insert a string into an already-sorted list, keeping it sorted. -/
def insertSorted (s : String) : List String → List String
  | [] => [s]
  | t :: ts => if lexLe s.data t.data then s :: t :: ts else t :: insertSorted s ts

/-- Sort strings in sqlite's default BINARY (lexicographic) order,
modelling `ORDER BY name`. -/
def sortNames (l : List String) : List String :=
  l.foldr insertSorted []

/-- The exact query `_call_tool` issues for the `list_tables` tool. -/
def listTablesQuery : String :=
  "SELECT name FROM sqlite_master WHERE type='table' ORDER BY name;"

/-- The table name that follows a statement head such as
`CREATE TABLE ` or `DROP TABLE IF EXISTS `. -/
def tableNameAfter (head q : String) : String :=
  ⟨((pyStrip q).data.drop head.length).takeWhile
    (fun c => !(c = ' ' || c = '(' || c = ';' || c = '\n'))⟩

/-- The second SQL token of a statement (as sqlite's tokenizer would
report it in a syntax-error message). -/
def secondToken (s : String) : String :=
  ⟨(((pyStrip s).data.dropWhile (fun c => !pyIsSpace c)).dropWhile pyIsSpace).takeWhile
    (fun c => !(pyIsSpace c || c = ';' || c = '(' || c = ')' || c = ','))⟩

/-- Modelled from the sqlite3 library (an external dependency, not part of
this repository): execute one statement of the forms the repository or its
callers can issue against a connection opened on `f`.  `Except.error`
carries the message of the `sqlite3.OperationalError` `cursor.execute`
raises; `.ok` returns the connection's resulting state, `cursor.rowcount`,
and the rows `fetchall` would yield.  Per the sqlite3/SQLite documentation:
`rowcount` is `-1` for DDL and SELECT statements and the number of modified
rows for DML; creating a table that already exists, or inserting into a
missing table, or a `SELECT` with no result column before `FROM` raises
with the messages modelled here; creating a table with an `AUTOINCREMENT`
column also creates the internal `sqlite_sequence` table if absent; and
`sqlite_master` lists every table's name (internal tables included), with
`ORDER BY name` sorting in BINARY (lexicographic) order. -/
def sqlExec (f : DbFile) (q : String) : Except String (DbFile × Int × List Row) :=
  let s := pyStrip q
  if s = listTablesQuery then
    .ok (f, -1, (sortNames f.tables).map (fun n => [("name", RVal.str n)]))
  else if pyStartsWith s "DROP TABLE IF EXISTS " then
    .ok (⟨f.tables.filter (fun t => t ≠ tableNameAfter "DROP TABLE IF EXISTS " q)⟩, -1, [])
  else if pyStartsWith s "CREATE TABLE " then
    let t := tableNameAfter "CREATE TABLE " q
    if f.tables.contains t then
      .error ("table " ++ t ++ " already exists")
    else if strHas (pyUpper s) "AUTOINCREMENT" && !f.tables.contains "sqlite_sequence" then
      .ok (⟨f.tables ++ [t, "sqlite_sequence"]⟩, -1, [])
    else
      .ok (⟨f.tables ++ [t]⟩, -1, [])
  else if pyStartsWith s "INSERT INTO " then
    let t := tableNameAfter "INSERT INTO " q
    if f.tables.contains t then
      .ok (f, 1, [])
    else
      .error ("no such table: " ++ t)
  else if pyStartsWith s "UPDATE " || pyStartsWith s "DELETE " then
    .ok (f, 0, [])
  else if pyStartsWith (pyUpper s) "SELECT " && pyUpper (secondToken s) = "FROM" then
    .error ("near \"" ++ secondToken s ++ "\": syntax error")
  else
    .ok (f, -1, [])

/-- The statement heads `_execute_query` treats as mutations. -/
def mutationHeads : List String :=
  ["INSERT", "UPDATE", "DELETE", "CREATE", "DROP", "ALTER"]

/-- Embeds `SqliteDatabase._execute_query`: open a fresh connection on the
file and execute the statement.  If `cursor.execute` raises, the exception
propagates (`.error`) — nothing is committed and nothing is returned.  On
success, either commit and report `affected_rows` (mutation heads) or fetch
the rows and discard the uncommitted connection.  `.ok` carries the
resulting persisted file alongside the row list. -/
def executeQuery (f : DbFile) (q : String) : Except String (DbFile × List Row) :=
  match sqlExec f q with
  | .error e => .error e
  | .ok r =>
    if pyStartsWithAny (pyUpper (pyStrip q)) mutationHeads then
      .ok (r.1, [[("affected_rows", RVal.int r.2.1)]])
    else
      .ok (f, r.2.2)

/-- Embeds `SqliteDatabase.synthesize_memo`: render the running insight log as a
plain-text memo, with a summary line once more than one insight exists. -/
def synthesizeMemo (insights : List String) : String :=
  if insights.isEmpty then
    "No business insights have been recorded yet."
  else
    let lines := String.intercalate "\n" (insights.map (fun i => "- " ++ i))
    let memo := "📊 Business Insights Memo 📊\n\nKey Insights:\n" ++ lines
    if insights.length > 1 then
      memo ++ "\n\nSummary:\n" ++ toString insights.length ++
        " insights suggest strategic opportunities."
    else
      memo

/-- The mutable server-side state of the SQLite Explorer process:
the database file and the in-memory insight log. -/
structure ServerSt where
  file : DbFile
  insights : List String
deriving DecidableEq, Repr

/-- The `args` dictionary of a call request (`Dict[str,Any] = None` in the
source): possibly absent, otherwise an association list of argument values.
Every argument this server reads is a string. -/
def Args := Option (List (String × String))

/-- Association-list lookup, as Python `dict` lookup. -/
def lookupArg (l : List (String × String)) (k : String) : Option String :=
  match l.find? (fun kv => kv.1 = k) with
  | some kv => some kv.2
  | none => none

/-- Python `args[k]`: raises `KeyError(k)` (whose `str` is `'k'`) when the
key is missing and `TypeError` when `args` is `None`. -/
def getItem (args : Args) (k : String) : Except String String :=
  match args with
  | none => .error "'NoneType' object is not subscriptable"
  | some l =>
    match lookupArg l k with
    | some v => .ok v
    | none => .error ("'" ++ k ++ "'")

/-- Python `args.get(k) if args else None`. -/
def getOpt (args : Args) (k : String) : Option String :=
  match args with
  | none => none
  | some l => lookupArg l k

/-- Python truthiness of an optional string: `None` and `""` are falsy. -/
def truthy : Option String → Bool
  | none => false
  | some s => s ≠ ""

/-- A content block of a call result (always `TextContent(type="text")`
in this server). -/
structure TextContent where
  text : String
deriving DecidableEq, Repr

/-- The URI passed to `send_resource_updated` on every insight append. -/
def memoUri : String := "memo://insights"

/-- The body of `_call_tool` (the `try` block): on `name` and `args` and
the current server state, either raise (modelled as `Except.error` carrying
the exception's message text) or return the content blocks, the new server
state, and the list of resource-changed notification URIs sent. -/
def callToolBody (name : String) (args : Args) (st : ServerSt) :
    Except String (List TextContent × ServerSt × List String) :=
  if name = "list_tables" then
    match executeQuery st.file listTablesQuery with
    | .error e => .error e
    | .ok r => .ok ([⟨renderRows r.2⟩], { st with file := r.1 }, [])
  else if name = "describe_table" then
    let tbl := getOpt args "table_name"
    if !truthy tbl then
      .error "Missing 'table_name'"
    else
      match executeQuery st.file ("PRAGMA table_info(" ++ tbl.getD "" ++ ");") with
      | .error e => .error e
      | .ok r => .ok ([⟨renderRows r.2⟩], { st with file := r.1 }, [])
  else if name = "create_table" then
    match getItem args "query" with
    | .error e => .error e
    | .ok q =>
      if !pyStartsWith (pyUpper (pyStrip q)) "CREATE TABLE" then
        .error "create_table only supports CREATE TABLE"
      else
        match executeQuery st.file q with
        | .error e => .error e
        | .ok r => .ok ([⟨renderRows r.2⟩], { st with file := r.1 }, [])
  else if name = "read_query" then
    match getItem args "query" with
    | .error e => .error e
    | .ok q =>
      if !pyStartsWith (pyUpper (pyStrip q)) "SELECT" then
        .error "read_query only supports SELECT"
      else
        match executeQuery st.file q with
        | .error e => .error e
        | .ok r => .ok ([⟨renderRows r.2⟩], { st with file := r.1 }, [])
  else if name = "write_query" then
    match getItem args "query" with
    | .error e => .error e
    | .ok q =>
      if pyStartsWith (pyUpper (pyStrip q)) "SELECT" then
        .error "write_query does not support SELECT"
      else
        match executeQuery st.file q with
        | .error e => .error e
        | .ok r => .ok ([⟨renderRows r.2⟩], { st with file := r.1 }, [])
  else if name = "append_insight" then
    match getItem args "insight" with
    | .error e => .error e
    | .ok itm =>
      .ok ([⟨"Insight appended"⟩], { st with insights := st.insights ++ [itm] }, [memoUri])
  else
    .error ("Unknown tool: " ++ name)

/-- Embeds `_call_tool`: run the body and catch any raised failure, turning it into
a single error content block `"Error: <message>"`.  Totality of this Lean
function is the embedding of "the dispatcher never raises". -/
def callTool (name : String) (args : Args) (st : ServerSt) :
    List TextContent × ServerSt × List String :=
  match callToolBody name args st with
  | .ok r => r
  | .error e => ([⟨"Error: " ++ e⟩], st, [])

/-- Embeds `_read_resource`: only the memo URI is known; anything else raises. -/
def readResource (uri : String) (st : ServerSt) : Except String String :=
  if uri ≠ memoUri then
    .error ("Unknown resource: " ++ uri)
  else
    .ok (synthesizeMemo st.insights)

/-- A tool descriptor as returned by discovery: name, description and the
declarative input schema (required keys and property types). -/
structure ToolDesc where
  name : String
  description : String
  schemaRequired : List String
  schemaProps : List (String × String)
deriving DecidableEq, Repr

/-- Embeds `_list_tools`: the fixed tool registry, in source order.  The Python
handler takes no input and reads no state; we expose the (ignored) server
state to express that. -/
def listTools (_st : ServerSt) : List ToolDesc :=
  [ ⟨"create_table", "Create a new table (CREATE TABLE...)", ["query"], [("query", "string")]⟩
  , ⟨"read_query", "Run a SELECT query", ["query"], [("query", "string")]⟩
  , ⟨"write_query", "Run an INSERT/UPDATE/DELETE", ["query"], [("query", "string")]⟩
  , ⟨"list_tables", "List all table names", [], []⟩
  , ⟨"describe_table", "Describe columns of a table (PRAGMA table_info)", ["table_name"], [("table_name", "string")]⟩
  , ⟨"append_insight", "Add a business insight to the memo", ["insight"], [("insight", "string")]⟩
  ]

/-- The tool names `_call_tool` recognises. -/
def registryToolNames : List String :=
  (listTools ⟨DbFile.empty, []⟩).map ToolDesc.name

/-- The statements `create_db.py` executes, in order: `create_tables`
(three drops, three creates), then `seed_users` (5 inserts),
`seed_products` (5 inserts) and `seed_orders` (20 inserts). -/
def createDbStmts : List String :=
  [ "DROP TABLE IF EXISTS orders;"
  , "DROP TABLE IF EXISTS products;"
  , "DROP TABLE IF EXISTS users;"
  , "\n        CREATE TABLE users (\n            id INTEGER PRIMARY KEY AUTOINCREMENT,\n            name TEXT NOT NULL,\n            email TEXT NOT NULL UNIQUE,\n            signup_date TEXT NOT NULL\n        );\n    "
  , "\n        CREATE TABLE products (\n            id INTEGER PRIMARY KEY AUTOINCREMENT,\n            name TEXT NOT NULL,\n            price REAL NOT NULL\n        );\n    "
  , "\n        CREATE TABLE orders (\n            id INTEGER PRIMARY KEY AUTOINCREMENT,\n            user_id INTEGER NOT NULL,\n            product_id INTEGER NOT NULL,\n            quantity INTEGER NOT NULL,\n            order_date TEXT NOT NULL,\n            FOREIGN KEY(user_id) REFERENCES users(id),\n            FOREIGN KEY(product_id) REFERENCES products(id)\n        );\n    "
  ]
  ++ List.replicate 5 "INSERT INTO users (name, email, signup_date) VALUES (?, ?, ?);"
  ++ List.replicate 5 "INSERT INTO products (name, price) VALUES (?, ?);"
  ++ List.replicate 20 "INSERT INTO orders (user_id, product_id, quantity, order_date) VALUES (?, ?, ?, ?);"

/-- The database file after `create_db.py` has run and committed.  (An
engine error would abort the script; none of these statements errors, so
the `.error` fallback below is never taken.) -/
def seededFile : DbFile :=
  createDbStmts.foldl
    (fun f q =>
      match sqlExec f q with
      | .ok r => r.1
      | .error _ => f)
    DbFile.empty

/-! Embedding of `mcp-agent-multi-tools/server.py`'s `add` tool.  The
source declares `a, b: float`; we model the floats exactly as rationals
(2.0, 3.0 and 5.0 are exactly representable in binary64 and their addition
is exact). -/

/-- The `add` tool handler: return `a + b`. -/
def add (a b : Rat) : Rat := a + b

/-- Python `str` of a float value, as FastMCP renders a float tool result
into text content (`str(5.0) = "5.0"`). -/
def floatText (q : Rat) : String :=
  if q.den = 1 then toString q.num ++ ".0" else toString q

/-- The text content of a successful `add` call. -/
def addToolText (a b : Rat) : String :=
  floatText (add a b)

/-! Embedding of `Github-Users-MCP/server.py`'s `github_search` tool. -/

/-- A GitHub API search response: HTTP status, body text, and the parsed
`items` array as (login, html_url, score) triples. -/
structure GhResp where
  status : Int
  text : String
  items : List (String × String × Int)
deriving Repr

/-- Python `json.dumps` of the guard-failure payload. -/
def ghGuardError : String :=
  "\x7b\"error\": \"Provide at least one of 'name' or 'location'.\"\x7d"

/-- Python `json.dumps` of one result entry. -/
def ghRenderUser (u : String × String × Int) : String :=
  "\x7b\"login\": \"" ++ u.1 ++ "\", \"url\": \"" ++ u.2.1 ++ "\", \"score\": " ++ toString u.2.2 ++ "\x7d"

/-- Embeds `github_search`: build the query from the truthy parts of `name` and
`location`; with neither, return the guard-error JSON without calling out.
Otherwise issue one request through `api` (the httpx client, modelled as a
function of query, per_page and headers) and encode the outcome.  The
returned `Nat` counts outbound HTTP requests. -/
def githubSearch (name location : Option String) (perPage : Int)
    (token : Option String)
    (api : String → Int → List (String × String) → GhResp) : String × Nat :=
  let qParts :=
    (if truthy name then [name.getD "" ++ " in:login"] else []) ++
    (if truthy location then ["location:" ++ location.getD ""] else [])
  if qParts.isEmpty then
    (ghGuardError, 0)
  else
    let query := String.intercalate "+" qParts
    let headers :=
      [("Accept", "application/vnd.github.v3+json")] ++
      (match token with
       | some t => [("Authorization", "token " ++ t)]
       | none => [])
    let resp := api query perPage headers
    if resp.status ≠ 200 then
      ("\x7b\"error\": \"GitHub API returned " ++ toString resp.status ++ ": " ++ resp.text ++ "\"\x7d", 1)
    else
      ("[" ++ String.intercalate ", " (resp.items.map ghRenderUser) ++ "]", 1)

instance {ε α : Type} [DecidableEq ε] [DecidableEq α] : DecidableEq (Except ε α) :=
  fun x y =>
    match x, y with
    | .ok a, .ok b =>
      if h : a = b then .isTrue (by rw [h]) else
        .isFalse (fun hc => h (by cases hc; rfl))
    | .ok _, .error _ => .isFalse (fun hc => Except.noConfusion hc)
    | .error _, .ok _ => .isFalse (fun hc => Except.noConfusion hc)
    | .error e, .error f =>
      if h : e = f then .isTrue (by rw [h]) else
        .isFalse (fun hc => h (by cases hc; rfl))

/-! ### Theorems -/

/-- A statement whose (stripped, upper-cased) text starts with `SELECT`
starts with none of the mutation heads: the six heads each begin with a
letter other than `S`. -/
theorem select_not_mutation (s : String) (h : pyStartsWith s "SELECT" = true) :
    pyStartsWithAny s mutationHeads = false := by
  unfold pyStartsWith at h
  unfold pyStartsWithAny mutationHeads pyStartsWith
  match hd : s.data with
  | [] => simp [hd, List.isPrefixOf] at h
  | c :: cs =>
    rw [hd] at h
    simp [List.isPrefixOf] at h
    simp [List.isPrefixOf, ← h.1]

/-- C1: the dispatcher `_call_tool` never raises — `callTool` is a total
function — and whenever the handler body raises a failure with message `e`,
the call returns the single error content block `"Error: <e>"`, leaves the
server state unchanged, and sends no notification. -/
theorem callTool_catches_handler_failures (name : String) (args : Args)
    (st : ServerSt) (e : String)
    (h : callToolBody name args st = .error e) :
    callTool name args st = ([⟨"Error: " ++ e⟩], st, []) := by
  unfold callTool
  rw [h]

/-- Witness for C1: calling the unknown tool `"bogus"` makes the body raise
`Unknown tool: bogus`, and the dispatch returns it as an error block. -/
theorem callTool_catches_handler_failures_witness :
    callTool "bogus" none ⟨DbFile.empty, []⟩
      = ([⟨"Error: Unknown tool: bogus"⟩], ⟨DbFile.empty, []⟩, []) :=
  callTool_catches_handler_failures "bogus" none ⟨DbFile.empty, []⟩
    "Unknown tool: bogus" (by decide)

/-- C8: tool discovery is deterministic and independent of any server
state: any two calls return identical descriptor lists. -/
theorem listTools_deterministic (s₁ s₂ : ServerSt) :
    listTools s₁ = listTools s₂ :=
  rfl

/-- C9: `add` with `a = 2`, `b = 3` returns `5`, rendered into the text
content `"5.0"` — the number 5 encoded as text. -/
theorem add_two_three :
    add 2 3 = 5 ∧ addToolText 2 3 = "5.0" := by
  have h5 : add 2 3 = (5 : Rat) := by
    unfold add
    norm_num
  refine ⟨h5, ?_⟩
  unfold addToolText
  rw [h5]
  decide

/-- C10: with `name` and `location` both absent or empty, `github_search`
performs no outbound HTTP request (request count 0) and returns the
guard-failure JSON string as its ordinary (success) payload, for every
`per_page`, token and HTTP client behaviour. -/
theorem github_search_guard (name location : Option String) (perPage : Int)
    (token : Option String) (api : String → Int → List (String × String) → GhResp)
    (hn : truthy name = false) (hl : truthy location = false) :
    githubSearch name location perPage token api = (ghGuardError, 0) := by
  unfold githubSearch
  simp [hn, hl]

/-- Witness for C10: `name` absent and `location` empty. -/
theorem github_search_guard_witness :
    githubSearch none (some "") 5 none (fun _ _ _ => ⟨0, "", []⟩)
      = (ghGuardError, 0) :=
  github_search_guard none (some "") 5 none (fun _ _ _ => ⟨0, "", []⟩)
    (by decide) (by decide)

/-- C2: for every tool name outside the registry, the body raises exactly
`Unknown tool: <name>` and dispatch returns it as a single error content
block — it never escapes the dispatcher. -/
theorem unknown_tool_dispatch (name : String) (args : Args) (st : ServerSt)
    (h : name ∉ registryToolNames) :
    callToolBody name args st = .error ("Unknown tool: " ++ name) ∧
    callTool name args st = ([⟨"Error: " ++ ("Unknown tool: " ++ name)⟩], st, []) := by
  simp [registryToolNames, listTools] at h
  obtain ⟨h1, h2, h3, h4, h5, h6⟩ := h
  have hb : callToolBody name args st = .error ("Unknown tool: " ++ name) := by
    simp [callToolBody, h1, h2, h3, h4, h5, h6]
  exact ⟨hb, by simp [callTool, hb]⟩

/-- Witness for C2: the name `"mystery"` is not registered. -/
theorem unknown_tool_dispatch_witness :
    callToolBody "mystery" none ⟨DbFile.empty, []⟩ = .error ("Unknown tool: " ++ "mystery") ∧
    callTool "mystery" none ⟨DbFile.empty, []⟩
      = ([⟨"Error: " ++ ("Unknown tool: " ++ "mystery")⟩], ⟨DbFile.empty, []⟩, []) :=
  unknown_tool_dispatch "mystery" none ⟨DbFile.empty, []⟩ (by decide)

/-- C3 counterexample: the statement `SELECT FROM users` starts with
`SELECT`, yet `read_query` returns an error result (sqlite's
`OperationalError` caught by the dispatcher), not row data — refuting the
claim's second half at a concrete input. -/
theorem read_query_select_counterexample :
    pyStartsWith (pyUpper (pyStrip "SELECT FROM users")) "SELECT" = true ∧
    callTool "read_query" (some [("query", "SELECT FROM users")]) ⟨DbFile.empty, []⟩
      = ([⟨"Error: near \"FROM\": syntax error"⟩], ⟨DbFile.empty, []⟩, []) ∧
    resultOk (callToolBody "read_query" (some [("query", "SELECT FROM users")])
      ⟨DbFile.empty, []⟩) = false := by
  decide

/-- C3 (amended): `read_query` on a statement whose stripped upper-cased
text does not start with `SELECT` returns the error result, unchanged state
and no notification; on a `SELECT` statement it never returns an
affected-row count — when execution succeeds it returns the rendered
fetched rows (row data from `fetchall`), and when the engine raises, the
failure message is returned as an error result. -/
theorem read_query_policy (q : String) (st : ServerSt) :
    (pyStartsWith (pyUpper (pyStrip q)) "SELECT" = false →
      callTool "read_query" (some [("query", q)]) st
        = ([⟨"Error: read_query only supports SELECT"⟩], st, [])) ∧
    (pyStartsWith (pyUpper (pyStrip q)) "SELECT" = true →
      (∀ d rc rows, sqlExec st.file q = .ok (d, rc, rows) →
        callTool "read_query" (some [("query", q)]) st
          = ([⟨renderRows rows⟩], st, [])) ∧
      (∀ e, sqlExec st.file q = .error e →
        callTool "read_query" (some [("query", q)]) st
          = ([⟨"Error: " ++ e⟩], st, []))) := by
  constructor <;> intro h
  · simp [callTool, callToolBody, getItem, lookupArg, h]
  · have hm := select_not_mutation _ h
    constructor
    · intro d rc rows hok
      simp [callTool, callToolBody, getItem, lookupArg, executeQuery, h, hm, hok]
    · intro e he
      simp [callTool, callToolBody, getItem, lookupArg, executeQuery, h, hm, he]

/-- Witness for C3: a `DROP` statement is rejected, a well-formed `SELECT`
yields row data, and a malformed `SELECT` yields the engine's error. -/
theorem read_query_policy_witness :
    callTool "read_query" (some [("query", "DROP TABLE users")]) ⟨DbFile.empty, []⟩
      = ([⟨"Error: read_query only supports SELECT"⟩], ⟨DbFile.empty, []⟩, []) ∧
    callTool "read_query" (some [("query", "SELECT 1")]) ⟨DbFile.empty, []⟩
      = ([⟨"[]"⟩], ⟨DbFile.empty, []⟩, []) ∧
    callTool "read_query" (some [("query", "SELECT FROM orders")]) ⟨DbFile.empty, []⟩
      = ([⟨"Error: near \"FROM\": syntax error"⟩], ⟨DbFile.empty, []⟩, []) :=
  ⟨(read_query_policy "DROP TABLE users" ⟨DbFile.empty, []⟩).1 (by decide),
   ((read_query_policy "SELECT 1" ⟨DbFile.empty, []⟩).2 (by decide)).1
     DbFile.empty (-1) [] (by decide),
   ((read_query_policy "SELECT FROM orders" ⟨DbFile.empty, []⟩).2 (by decide)).2
     "near \"FROM\": syntax error" (by decide)⟩

/-- C4 counterexample: `INSERT INTO nonexistent VALUES (1)` is
mutation-headed, yet `cursor.execute` raises before any commit, so
`_execute_query` neither commits nor returns an affected-row count — the
exception propagates instead. -/
theorem execute_query_mutation_counterexample :
    pyStartsWithAny (pyUpper (pyStrip "INSERT INTO nonexistent VALUES (1)"))
      mutationHeads = true ∧
    executeQuery DbFile.empty "INSERT INTO nonexistent VALUES (1)"
      = .error "no such table: nonexistent" := by
  decide

/-- C4 (amended): on a statement whose stripped upper-cased text begins
with `INSERT`/`UPDATE`/`DELETE`/`CREATE`/`DROP`/`ALTER` and whose execution
succeeds, `_execute_query` commits immediately after executing — the
persisted file is the engine's post-execution connection state — and
returns the single `affected_rows` row carrying `cursor.rowcount` instead
of row data; when execution raises, the exception propagates: nothing is
committed and no count is returned. -/
theorem execute_query_mutation (f : DbFile) (q : String)
    (h : pyStartsWithAny (pyUpper (pyStrip q)) mutationHeads = true) :
    (∀ d rc rows, sqlExec f q = .ok (d, rc, rows) →
      executeQuery f q = .ok (d, [[("affected_rows", RVal.int rc)]])) ∧
    (∀ e, sqlExec f q = .error e → executeQuery f q = .error e) := by
  constructor
  · intro d rc rows hok
    simp [executeQuery, h, hok]
  · intro e he
    simp [executeQuery, he]

/-- Witness for C4: a successful `CREATE TABLE` is committed (the table is
in the persisted file) and reports `cursor.rowcount` (−1 for DDL); an
insert into a missing table propagates the engine's failure. -/
theorem execute_query_mutation_witness :
    executeQuery DbFile.empty "CREATE TABLE dashboards (id INTEGER);"
      = .ok (⟨["dashboards"]⟩, [[("affected_rows", RVal.int (-1))]]) ∧
    executeQuery DbFile.empty "INSERT INTO ghosts VALUES (1)"
      = .error "no such table: ghosts" :=
  ⟨(execute_query_mutation DbFile.empty "CREATE TABLE dashboards (id INTEGER);"
      (by decide)).1 ⟨["dashboards"]⟩ (-1) [] (by decide),
   (execute_query_mutation DbFile.empty "INSERT INTO ghosts VALUES (1)"
      (by decide)).2 "no such table: ghosts" (by decide)⟩

set_option maxRecDepth 20000 in
/-- C5: appending insight `"X"` succeeds, notifies, and the memo resource
then contains the bullet `- X` and no summary; after a second insight the
memo's tail line reports exactly 2 insights, and only then does the summary
appear. -/
theorem append_insight_memo_scenario :
    callTool "append_insight" (some [("insight", "X")]) ⟨DbFile.empty, []⟩
      = ([⟨"Insight appended"⟩], ⟨DbFile.empty, ["X"]⟩, [memoUri]) ∧
    readResource memoUri ⟨DbFile.empty, ["X"]⟩ = .ok (synthesizeMemo ["X"]) ∧
    strHas (synthesizeMemo ["X"]) "- X" = true ∧
    strHas (synthesizeMemo ["X"]) "Summary:" = false ∧
    callTool "append_insight" (some [("insight", "Y")]) ⟨DbFile.empty, ["X"]⟩
      = ([⟨"Insight appended"⟩], ⟨DbFile.empty, ["X", "Y"]⟩, [memoUri]) ∧
    lastLine (synthesizeMemo ["X", "Y"]) = "2 insights suggest strategic opportunities." ∧
    strHas (synthesizeMemo ["X", "Y"]) "Summary:" = true := by
  decide

set_option maxRecDepth 40000 in
/-- C6 counterexample: against the database seeded by `create_db.py`,
`list_tables` does not return the three-name listing the claim states —
the `AUTOINCREMENT` columns made sqlite create the internal
`sqlite_sequence` table, which the unfiltered `sqlite_master` query also
lists. -/
theorem list_tables_seeded_counterexample :
    (callTool "list_tables" (some []) ⟨seededFile, []⟩).1
      ≠ [⟨"[\x7b'name': 'orders'\x7d, \x7b'name': 'products'\x7d, \x7b'name': 'users'\x7d]"⟩] ∧
    strHas (renderRows ((sortNames seededFile.tables).map (fun n => [("name", RVal.str n)])))
      "sqlite_sequence" = true := by
  decide

set_option maxRecDepth 40000 in
/-- C6 (amended): against the database seeded by `create_db.py`,
`list_tables` succeeds and lists exactly four names in lexicographic
order — `orders`, `products`, `sqlite_sequence`, `users`: the three seeded
tables plus sqlite's internal `sqlite_sequence` table created by their
`AUTOINCREMENT` columns. -/
theorem list_tables_seeded :
    seededFile = ⟨["users", "sqlite_sequence", "products", "orders"]⟩ ∧
    callTool "list_tables" (some []) ⟨seededFile, []⟩
      = ([⟨"[\x7b'name': 'orders'\x7d, \x7b'name': 'products'\x7d, \x7b'name': 'sqlite_sequence'\x7d, \x7b'name': 'users'\x7d]"⟩],
         ⟨seededFile, []⟩, []) ∧
    sortNames ["users", "sqlite_sequence", "products", "orders"]
      = ["orders", "products", "sqlite_sequence", "users"] := by
  decide

/-- C7: an `append_insight` call sends exactly one resource-changed
notification, for the memo URI, when it succeeds, and none when it returns
an error result. -/
theorem append_insight_notifications (args : Args) (st : ServerSt) :
    (resultOk (callToolBody "append_insight" args st) = true →
      (callTool "append_insight" args st).2.2 = [memoUri]) ∧
    (resultOk (callToolBody "append_insight" args st) = false →
      (callTool "append_insight" args st).2.2 = []) := by
  have hb : callToolBody "append_insight" args st
      = match getItem args "insight" with
        | .error e => .error e
        | .ok itm =>
          .ok ([⟨"Insight appended"⟩], { st with insights := st.insights ++ [itm] }, [memoUri]) := by
    simp [callToolBody]
  cases hg : getItem args "insight" <;>
    simp [callTool, hb, hg, resultOk]

/-- Witness for C7: a well-formed append notifies once; an append with no
arguments errors and does not notify. -/
theorem append_insight_notifications_witness :
    (callTool "append_insight" (some [("insight", "X2")]) ⟨DbFile.empty, []⟩).2.2 = [memoUri] ∧
    (callTool "append_insight" none ⟨DbFile.empty, []⟩).2.2 = [] :=
  ⟨(append_insight_notifications (some [("insight", "X2")]) ⟨DbFile.empty, []⟩).1 (by decide),
   (append_insight_notifications none ⟨DbFile.empty, []⟩).2 (by decide)⟩

end PydantiAIMCP
